import Mathlib

/-!
Verification of the MQTT client abstraction layer of `rpi-sensehat-mqtt`
(`src/mqtt/mqtt.py`), shallowly embedded in Lean 4.

The embedding follows the Python source line by line:
* Python `None`-or-`str` attributes become `Option String`; Python truthiness
  of such a value (`if t`) becomes `truthy`.
* The `paho.mqtt` client handle is external; its observable interactions
  (publish / subscribe / unsubscribe / disconnect / loop_stop requests) are
  recorded as a list of `Effect`s emitted by each method.
* The thread-safe `queue.Queue` of inbound messages becomes a `List`
  (front = oldest, `put` appends at the back, `get` takes the head).
* Python exceptions become `Except PyError` results.
* `json.loads` and `json.dumps` are Python standard-library functions, not
  repository code: they are parameters (`loads`, `dumps`) of the methods that
  call them. `bytes.decode("utf-8")` is modelled by tagging each payload with
  whether it is valid UTF-8 (`Payload.utf8 s` decodes to `s`,
  `Payload.invalid` raises `UnicodeDecodeError`), which is exactly the
  observable behaviour of the stdlib call.
-/

namespace RpiSensehatMqtt

/-- Python truthiness of an optional-string attribute: `None` and the empty
string are falsy, every other string is truthy (`[t for t in [...] if t]`). -/
def truthy : Option String → Bool
  | none => false
  | some s => !(s == "")

/-- `MqttClient.SENSOR` (mqtt.py line 31). -/
def SENSOR : String := "sensor"

/-- `MqttClient.LED` (mqtt.py line 32). -/
def LED : String := "led"

/-- `MqttClient.JOYSTICK` (mqtt.py line 33). -/
def JOYSTICK : String := "joystick"

/-- `MqttClient.TYPES` (mqtt.py line 34). -/
def TYPES : List String := [SENSOR, LED, JOYSTICK]

/-- `MqttClient.COMMAND` (mqtt.py line 36). -/
def COMMAND : String := "cmd"

/-- `MqttClient.STATUS` (mqtt.py line 37). -/
def STATUS : String := "status"

/-- A Python MQTT message payload as observed through `payload.decode("utf-8")`:
either bytes that decode to a string `s`, or bytes that are not valid UTF-8
(for example `b"\xff"`), on which `decode` raises `UnicodeDecodeError`. -/
inductive Payload where
  | utf8 (s : String)
  | invalid
deriving DecidableEq, Repr

/-- An inbound MQTT message as delivered by paho to `on_message`; the layer
only ever inspects its `payload`. -/
structure MqttMessage where
  payload : Payload
deriving DecidableEq, Repr

/-- The Python exceptions that can escape the modelled methods.
`invalidMqttAttr` and `mqttDecodingError` are the repository's own
`err.InvalidMqttAttr` / `err.MqttDecodingError` (raised with a message and a
second argument, mqtt.py lines 46, 50, 272, 275); `unicodeDecodeError` is the
stdlib exception raised by `bytes.decode("utf-8")` on invalid UTF-8, which
`decoded_message` does not catch. -/
inductive PyError where
  | invalidMqttAttr (msg attr : String)
  | mqttDecodingError (msg detail : String)
  | unicodeDecodeError
deriving DecidableEq, Repr

/-- `payload.decode("utf-8")` (mqtt.py line 266): returns the decoded string
or raises `UnicodeDecodeError`. -/
def Payload.decodeUtf8 : Payload → Except PyError String
  | .utf8 s => .ok s
  | .invalid => .error .unicodeDecodeError

/-- Shallow model of a Python `dict` as returned by `json.loads` and passed to
`json.dumps` / `publish`; the layer treats it as opaque, so an association
list of string fields is enough (the claims use only equality and `{}`). -/
abbrev PyDict := List (String × String)

/-- The empty Python dict `{}` returned by `decoded_message` on an empty
queue (mqtt.py line 263). -/
def PyDict.empty : PyDict := []

/-- Outcome of a `json.loads(message)` call (Python stdlib, external to the
repository): a parsed dict, a `json.JSONDecodeError` carrying its `.msg`, or
a `TypeError` — precisely the three outcomes `decoded_message` distinguishes
(mqtt.py lines 268-275). -/
inductive LoadsResult where
  | ok (d : PyDict)
  | jsonDecodeError (msg : String)
  | typeError
deriving DecidableEq, Repr

/-- Observable requests made to the underlying paho client object. -/
inductive Effect where
  | publishMsg (topic payload : String) (qos : Nat) (retain : Bool)
  | subscribe (topic : String) (qos : Nat)
  | unsubscribe (topic : String)
  | disconnect
  | loopStop
deriving DecidableEq, Repr

/-- Outcome of `urlparse(broker_address)` followed by `val.broker_url(b_url)`
(mqtt.py lines 42-50). `urlparse` and `val.broker_url` live in the Python
stdlib and the repository's `src/utils` module (not among the sources), so
the parse/validation outcome is a parameter of construction; the three cases
are the three branches `__init__` distinguishes: validation passed,
validation failed, and `ValueError` from parsing. -/
inductive ParseOutcome where
  | ok
  | invalid
  | valueError
deriving DecidableEq, Repr

/-- The attributes of a constructed `MqttClient` (mqtt.py lines 51-66) that
the layer itself reads or writes. The paho client handle `_client` is
external state and is modelled through `Effect` lists instead. -/
structure MqttClientState where
  zone : Option String
  room : Option String
  client_name : Option String
  type : Option String
  client_id : Option String
  user : Option String
  password : Option String
  topic : String
  is_enabled : Bool
  is_connected : Bool
  messages : List MqttMessage
deriving DecidableEq, Repr

/-- State of an `MqttClientSub` or `MqttClientPub`: the base attributes plus
`_full_topic` (mqtt.py lines 229 and 299). The two subclasses store the same
data; they differ only in their methods. -/
structure RoleClientState extends MqttClientState where
  full_topic : String
deriving DecidableEq, Repr

/-- Topic construction at `__init__` (mqtt.py lines 59-60):
`topics = [t for t in [zone, room, client_name, type] if t]` followed by
`"/".join(map(str, topics))`; `str` on a kept element is the identity since
every kept element is a (truthy) string. -/
def buildTopic (zone room client_name type : Option String) : String :=
  String.intercalate "/"
    ((([zone, room, client_name, type].filter truthy).map (fun t => t.getD "")))

/-- `MqttClient.__init__` (mqtt.py lines 40-71): validates the broker
address (raising `InvalidMqttAttr` on failure), stores the attributes, builds
the topic, initializes `_is_enabled`/`_is_connected`/`_messages`, runs the
`connect()` procedure (whose work is entirely on the external paho handle),
and finally sets `_is_enabled = True`. No check of `type` is performed. -/
def MqttClient.init (parse : String → ParseOutcome) (broker_address : String)
    (zone room client_name type client_id user password : Option String) :
    Except PyError MqttClientState :=
  match parse broker_address with
  | .ok =>
      .ok { zone := zone, room := room, client_name := client_name,
            type := type, client_id := client_id, user := user,
            password := password,
            topic := buildTopic zone room client_name type,
            is_enabled := true, is_connected := false, messages := [] }
  | .invalid =>
      .error (.invalidMqttAttr
        ("There was an error parsing the address " ++ broker_address ++ ".")
        "broker_address")
  | .valueError =>
      .error (.invalidMqttAttr
        ("Unable to parse the address " ++ broker_address ++ ".")
        "broker_address")

/-- The `type` property setter (mqtt.py lines 117-119):
`self._type = type if type in MqttClient.TYPES else None`; note that
`__init__` assigns `self._type` directly and never goes through this
setter. -/
def MqttClient.setType (st : MqttClientState) (t : Option String) :
    MqttClientState :=
  { st with type := if (match t with
                       | some s => decide (s ∈ TYPES)
                       | none => false) then t else none }

/-- `MqttClientSub.__init__` (mqtt.py lines 211-229): the base `__init__`
followed by `self._full_topic = self.topic + '/' + MqttClient.COMMAND`. -/
def MqttClientSub.init (parse : String → ParseOutcome) (broker_address : String)
    (zone room client_name type client_id user password : Option String) :
    Except PyError RoleClientState :=
  match MqttClient.init parse broker_address zone room client_name type
      client_id user password with
  | .ok st => .ok { st with full_topic := st.topic ++ "/" ++ COMMAND }
  | .error e => .error e

/-- `MqttClientPub.__init__` (mqtt.py lines 281-299): the base `__init__`
followed by `self._full_topic = self.topic + '/' + MqttClient.STATUS`. -/
def MqttClientPub.init (parse : String → ParseOutcome) (broker_address : String)
    (zone room client_name type client_id user password : Option String) :
    Except PyError RoleClientState :=
  match MqttClient.init parse broker_address zone room client_name type
      client_id user password with
  | .ok st => .ok { st with full_topic := st.topic ++ "/" ++ STATUS }
  | .error e => .error e

/-- `MqttClient.on_message` (mqtt.py lines 148-151): unconditionally enqueues
the received message (`self.messages.put(message)`); no filtering, no
inspection of the message. -/
def MqttClient.on_message (st : RoleClientState) (m : MqttMessage) :
    RoleClientState :=
  { st with messages := st.messages ++ [m] }

/-- `MqttClient.disable` (mqtt.py lines 195-205): if `is_enabled`, requests
`client.disconnect()` and `client.loop_stop()` and sets
`is_enabled = False`; otherwise does nothing. -/
def MqttClient.disable (st : RoleClientState) : RoleClientState × List Effect :=
  if st.is_enabled then
    ({ st with is_enabled := false }, [.disconnect, .loopStop])
  else
    (st, [])

/-- `MqttClientSub.on_connect` (mqtt.py lines 238-247): on reason code 0 sets
`is_connected = True` and subscribes to `full_topic` at QoS 0; on any other
reason code only logs. -/
def MqttClientSub.on_connect (st : RoleClientState) (rc : Nat) :
    RoleClientState × List Effect :=
  if rc = 0 then
    ({ st with is_connected := true }, [.subscribe st.full_topic 0])
  else
    (st, [])

/-- `MqttClientSub.on_disconnect` (mqtt.py lines 249-255): on a non-zero
reason code sets `is_connected = False` and unsubscribes from `full_topic`;
on reason code 0 does nothing. -/
def MqttClientSub.on_disconnect (st : RoleClientState) (rc : Nat) :
    RoleClientState × List Effect :=
  if rc ≠ 0 then
    ({ st with is_connected := false }, [.unsubscribe st.full_topic])
  else
    (st, [])

/-- `MqttClientPub.on_connect` (mqtt.py lines 308-315): on reason code 0 sets
`is_connected = True`; otherwise only logs. -/
def MqttClientPub.on_connect (st : RoleClientState) (rc : Nat) :
    RoleClientState × List Effect :=
  if rc = 0 then ({ st with is_connected := true }, []) else (st, [])

/-- `MqttClientPub.on_disconnect` (mqtt.py lines 317-321): on a non-zero
reason code sets `is_connected = False`; on reason code 0 does nothing. -/
def MqttClientPub.on_disconnect (st : RoleClientState) (rc : Nat) :
    RoleClientState × List Effect :=
  if rc ≠ 0 then ({ st with is_connected := false }, []) else (st, [])

/-- `MqttClientSub.decoded_message` (mqtt.py lines 258-275), parameterized
over the behaviour `loads` of the stdlib `json.loads`:
if the queue is empty, return `{}`; otherwise dequeue the oldest message,
decode its payload as UTF-8 (the `UnicodeDecodeError` of a bad payload is
*not* inside the `try`, so it escapes as is), then `json.loads` it, turning
`JSONDecodeError` and `TypeError` into `MqttDecodingError` with the raise
arguments of lines 272 and 275. Returns the call's outcome together with the
client state after the call. -/
def MqttClientSub.decoded_message (loads : String → LoadsResult)
    (st : RoleClientState) : Except PyError PyDict × RoleClientState :=
  match st.messages with
  | [] => (.ok PyDict.empty, st)
  | m :: rest =>
      match m.payload.decodeUtf8 with
      | .error e => (.error e, { st with messages := rest })
      | .ok s =>
          match loads s with
          | .ok d => (.ok d, { st with messages := rest })
          | .jsonDecodeError msg =>
              (.error (.mqttDecodingError
                  "There was an error deserializing the message." msg),
               { st with messages := rest })
          | .typeError =>
              (.error (.mqttDecodingError
                  "The message is of wrong type." "TypeError"),
               { st with messages := rest })

/-- `MqttClientPub.publish` (mqtt.py lines 324-336), parameterized over the
behaviour `dumps` of the stdlib `json.dumps`: serializes `data` and makes
exactly one `client.publish` request to `full_topic` with `qos=0` and
`retain=True`; returns `None` and leaves the client state untouched. -/
def MqttClientPub.publish (dumps : PyDict → String) (st : RoleClientState)
    (data : PyDict) : RoleClientState × List Effect :=
  (st, [.publishMsg st.full_topic (dumps data) 0 true])

/-- `decoded_message` iterated `n` times, collecting the successive
outcomes. -/
def decodeN (loads : String → LoadsResult) :
    Nat → RoleClientState → List (Except PyError PyDict) × RoleClientState
  | 0, st => ([], st)
  | n + 1, st =>
      let r := MqttClientSub.decoded_message loads st
      let rs := decodeN loads n r.2
      (r.1 :: rs.1, rs.2)

/-- The operations of a subscriber client: the broker-driven callbacks and
the consumer-side calls. `decode` carries the `json.loads` behaviour of that
call. Used to state lifetime invariants (nothing re-enables a disabled
client, nothing rewrites `full_topic`). -/
inductive SubOp where
  | onConnect (rc : Nat)
  | onDisconnect (rc : Nat)
  | onMessage (m : MqttMessage)
  | decode (loads : String → LoadsResult)
  | disable

/-- State transition of one subscriber operation. -/
def SubOp.apply : SubOp → RoleClientState → RoleClientState
  | .onConnect rc, st => (MqttClientSub.on_connect st rc).1
  | .onDisconnect rc, st => (MqttClientSub.on_disconnect st rc).1
  | .onMessage m, st => MqttClient.on_message st m
  | .decode loads, st => (MqttClientSub.decoded_message loads st).2
  | .disable, st => (MqttClient.disable st).1

/-- The operations of a publisher client. `publish` carries the `json.dumps`
behaviour of that call. -/
inductive PubOp where
  | onConnect (rc : Nat)
  | onDisconnect (rc : Nat)
  | onMessage (m : MqttMessage)
  | publish (dumps : PyDict → String) (d : PyDict)
  | disable

/-- State transition of one publisher operation. -/
def PubOp.apply : PubOp → RoleClientState → RoleClientState
  | .onConnect rc, st => (MqttClientPub.on_connect st rc).1
  | .onDisconnect rc, st => (MqttClientPub.on_disconnect st rc).1
  | .onMessage m, st => MqttClient.on_message st m
  | .publish dumps d, st => (MqttClientPub.publish dumps st d).1
  | .disable, st => (MqttClient.disable st).1

/-- Python's "ends in" on strings (`str.endswith`): `suffix` is a suffix of
`s`, stated on the underlying character lists. -/
def endsWith (s suffix : String) : Bool := suffix.data.isSuffixOf s.data

/-- `SubOp.apply` iterated over a list of operations (a client lifetime after
a given state). -/
def SubOp.applyAll (ops : List SubOp) (st : RoleClientState) : RoleClientState :=
  ops.foldl (fun s o => o.apply s) st

/-- `PubOp.apply` iterated over a list of operations. -/
def PubOp.applyAll (ops : List PubOp) (st : RoleClientState) : RoleClientState :=
  ops.foldl (fun s o => o.apply s) st

/-- Does a `decoded_message` outcome consist of a raised
`MqttDecodingError`? -/
def raisedMqttDecodingError : Except PyError PyDict → Bool
  | .error (.mqttDecodingError _ _) => true
  | _ => false

/-- The specification's topic builder, written from the spec's words:
`topic = join("/", filter(non_empty, [zone, room, client_name, type]))`,
a non-empty segment being a present, non-empty string. Compared against the
source's `buildTopic` for the refinement claim. -/
def specTopic (zone room client_name type : Option String) : String :=
  String.intercalate "/"
    (([zone, room, client_name, type].filterMap id).filter (fun s => s != ""))

/-! ### Helper lemmas -/

/-- Keeping the truthy optional segments and then reading them off equals
keeping the present segments and then dropping the empty ones. -/
theorem filter_truthy_map_getD (l : List (Option String)) :
    ((l.filter truthy).map (fun t => t.getD "")) =
      ((l.filterMap id).filter (fun s => s != "")) := by
  induction l with
  | nil => rfl
  | cons hd tl ih =>
    cases hd with
    | none => simpa [truthy] using ih
    | some s =>
      by_cases h : s = ""
      · subst h; simpa [truthy] using ih
      · simp [truthy, h, ih]

/-- The source's topic construction computes the specification's
`join("/", filter(non_empty, segments))`. -/
theorem buildTopic_eq_specTopic (z r n t : Option String) :
    buildTopic z r n t = specTopic z r n t := by
  unfold buildTopic specTopic
  rw [filter_truthy_map_getD]

/-- A string extended by `"/status"` never ends in `"/cmd"`. -/
theorem endsWith_status_not_cmd (x : String) :
    endsWith (x ++ "/" ++ STATUS) ("/" ++ COMMAND) = false := by
  unfold endsWith STATUS COMMAND
  rw [show ((x ++ "/" ++ "status").data) = x.data ++ ('/' :: ['s','t','a','t','u','s']) by
    rw [String.data_append, String.data_append, List.append_assoc]; rfl]
  show (("/" ++ "cmd").data).reverse.isPrefixOf _ = false
  rw [show (("/" ++ "cmd").data).reverse = ['d','m','c','/'] by decide]
  simp [List.isPrefixOf]

/-- A string extended by `"/cmd"` never ends in `"/status"`. -/
theorem endsWith_cmd_not_status (x : String) :
    endsWith (x ++ "/" ++ COMMAND) ("/" ++ STATUS) = false := by
  unfold endsWith STATUS COMMAND
  rw [show ((x ++ "/" ++ "cmd").data) = x.data ++ ('/' :: ['c','m','d']) by
    rw [String.data_append, String.data_append, List.append_assoc]; rfl]
  show (("/" ++ "status").data).reverse.isPrefixOf _ = false
  rw [show (("/" ++ "status").data).reverse = ['s','u','t','a','t','s','/'] by decide]
  simp [List.isPrefixOf]

/-- `decoded_message` changes nothing of the client state but the queue. -/
theorem decoded_message_state_frame (loads : String → LoadsResult)
    (st : RoleClientState) :
    ((MqttClientSub.decoded_message loads st).2.is_enabled = st.is_enabled) ∧
    ((MqttClientSub.decoded_message loads st).2.is_connected = st.is_connected) ∧
    ((MqttClientSub.decoded_message loads st).2.full_topic = st.full_topic) := by
  unfold MqttClientSub.decoded_message
  split
  · exact ⟨rfl, rfl, rfl⟩
  · split
    · exact ⟨rfl, rfl, rfl⟩
    · split <;> exact ⟨rfl, rfl, rfl⟩

/-- No subscriber operation re-enables a disabled client. -/
theorem subOp_apply_not_enabled (op : SubOp) (st : RoleClientState)
    (h : st.is_enabled = false) : (op.apply st).is_enabled = false := by
  cases op with
  | onConnect rc =>
    show ((MqttClientSub.on_connect st rc).1).is_enabled = false
    unfold MqttClientSub.on_connect
    split <;> exact h
  | onDisconnect rc =>
    show ((MqttClientSub.on_disconnect st rc).1).is_enabled = false
    unfold MqttClientSub.on_disconnect
    split <;> exact h
  | onMessage m => exact h
  | decode loads => exact (decoded_message_state_frame loads st).1.trans h
  | disable =>
    show ((MqttClient.disable st).1).is_enabled = false
    unfold MqttClient.disable
    split
    · rfl
    · exact h

/-- No subscriber operation rewrites `full_topic`. -/
theorem subOp_apply_full_topic (op : SubOp) (st : RoleClientState) :
    (op.apply st).full_topic = st.full_topic := by
  cases op with
  | onConnect rc =>
    show ((MqttClientSub.on_connect st rc).1).full_topic = st.full_topic
    unfold MqttClientSub.on_connect
    split <;> rfl
  | onDisconnect rc =>
    show ((MqttClientSub.on_disconnect st rc).1).full_topic = st.full_topic
    unfold MqttClientSub.on_disconnect
    split <;> rfl
  | onMessage m => rfl
  | decode loads => exact (decoded_message_state_frame loads st).2.2
  | disable =>
    show ((MqttClient.disable st).1).full_topic = st.full_topic
    unfold MqttClient.disable
    split <;> rfl

/-- No publisher operation re-enables a disabled client. -/
theorem pubOp_apply_not_enabled (op : PubOp) (st : RoleClientState)
    (h : st.is_enabled = false) : (op.apply st).is_enabled = false := by
  cases op with
  | onConnect rc =>
    show ((MqttClientPub.on_connect st rc).1).is_enabled = false
    unfold MqttClientPub.on_connect
    split <;> exact h
  | onDisconnect rc =>
    show ((MqttClientPub.on_disconnect st rc).1).is_enabled = false
    unfold MqttClientPub.on_disconnect
    split <;> exact h
  | onMessage m => exact h
  | publish dumps d => exact h
  | disable =>
    show ((MqttClient.disable st).1).is_enabled = false
    unfold MqttClient.disable
    split
    · rfl
    · exact h

/-- No publisher operation rewrites `full_topic`. -/
theorem pubOp_apply_full_topic (op : PubOp) (st : RoleClientState) :
    (op.apply st).full_topic = st.full_topic := by
  cases op with
  | onConnect rc =>
    show ((MqttClientPub.on_connect st rc).1).full_topic = st.full_topic
    unfold MqttClientPub.on_connect
    split <;> rfl
  | onDisconnect rc =>
    show ((MqttClientPub.on_disconnect st rc).1).full_topic = st.full_topic
    unfold MqttClientPub.on_disconnect
    split <;> rfl
  | onMessage m => rfl
  | publish dumps d => rfl
  | disable =>
    show ((MqttClient.disable st).1).full_topic = st.full_topic
    unfold MqttClient.disable
    split <;> rfl

/-- Once disabled, a subscriber stays disabled under any run of
operations. -/
theorem subOp_applyAll_not_enabled (ops : List SubOp) (st : RoleClientState)
    (h : st.is_enabled = false) : (SubOp.applyAll ops st).is_enabled = false := by
  induction ops generalizing st with
  | nil => exact h
  | cons o os ih => exact ih (o.apply st) (subOp_apply_not_enabled o st h)

/-- Once disabled, a publisher stays disabled under any run of
operations. -/
theorem pubOp_applyAll_not_enabled (ops : List PubOp) (st : RoleClientState)
    (h : st.is_enabled = false) : (PubOp.applyAll ops st).is_enabled = false := by
  induction ops generalizing st with
  | nil => exact h
  | cons o os ih => exact ih (o.apply st) (pubOp_apply_not_enabled o st h)

/-- A subscriber's `full_topic` is unchanged by any run of operations. -/
theorem subOp_applyAll_full_topic (ops : List SubOp) (st : RoleClientState) :
    (SubOp.applyAll ops st).full_topic = st.full_topic := by
  induction ops generalizing st with
  | nil => rfl
  | cons o os ih => exact (ih (o.apply st)).trans (subOp_apply_full_topic o st)

/-- A publisher's `full_topic` is unchanged by any run of operations. -/
theorem pubOp_applyAll_full_topic (ops : List PubOp) (st : RoleClientState) :
    (PubOp.applyAll ops st).full_topic = st.full_topic := by
  induction ops generalizing st with
  | nil => rfl
  | cons o os ih => exact (ih (o.apply st)).trans (pubOp_apply_full_topic o st)

/-- Subscriber construction on a successful base construction. -/
theorem mqttClientSub_init_ok (parse : String → ParseOutcome) (addr : String)
    (z r n t cid u p : Option String) (st : MqttClientState)
    (h : MqttClient.init parse addr z r n t cid u p = Except.ok st) :
    MqttClientSub.init parse addr z r n t cid u p =
      Except.ok { st with full_topic := st.topic ++ "/" ++ COMMAND } := by
  unfold MqttClientSub.init
  rw [h]

/-- Subscriber construction propagates a base-construction failure. -/
theorem mqttClientSub_init_error (parse : String → ParseOutcome) (addr : String)
    (z r n t cid u p : Option String) (e : PyError)
    (h : MqttClient.init parse addr z r n t cid u p = Except.error e) :
    MqttClientSub.init parse addr z r n t cid u p = Except.error e := by
  unfold MqttClientSub.init
  rw [h]

/-- Publisher construction on a successful base construction. -/
theorem mqttClientPub_init_ok (parse : String → ParseOutcome) (addr : String)
    (z r n t cid u p : Option String) (st : MqttClientState)
    (h : MqttClient.init parse addr z r n t cid u p = Except.ok st) :
    MqttClientPub.init parse addr z r n t cid u p =
      Except.ok { st with full_topic := st.topic ++ "/" ++ STATUS } := by
  unfold MqttClientPub.init
  rw [h]

/-- Publisher construction propagates a base-construction failure. -/
theorem mqttClientPub_init_error (parse : String → ParseOutcome) (addr : String)
    (z r n t cid u p : Option String) (e : PyError)
    (h : MqttClient.init parse addr z r n t cid u p = Except.error e) :
    MqttClientPub.init parse addr z r n t cid u p = Except.error e := by
  unfold MqttClientPub.init
  rw [h]

/-- One successful decode step of `decoded_message`: on a queue headed by a
message whose payload decodes to a string that `loads` parses, the call
returns the parsed dict and consumes exactly that message. -/
theorem decoded_message_ok_step (loads : String → LoadsResult)
    (st : RoleClientState) (m : MqttMessage) (rest : List MqttMessage)
    (s : String) (d : PyDict) (hm : st.messages = m :: rest)
    (hp : m.payload = Payload.utf8 s) (hl : loads s = LoadsResult.ok d) :
    MqttClientSub.decoded_message loads st = (Except.ok d, { st with messages := rest }) := by
  simp only [MqttClientSub.decoded_message, hm, hp, Payload.decodeUtf8, hl]

/-! ### Concrete data for evaluating the theorems -/

/-- Modelled from the spec: the broker-address validation done at
construction by `urlparse` plus `val.broker_url` — both outside the given
sources (`src/utils` module) — "fails with `InvalidBrokerAddress` if the URL
cannot be parsed or fails a validation predicate (scheme/host present)".
`parseOk` is that validation's behaviour on well-formed addresses such as
`mqtt://broker:1883` (scheme and host present): it succeeds. -/
def parseOk : String → ParseOutcome := fun _ => ParseOutcome.ok

/-- A concrete `json.loads` behaviour on the payload texts used below,
mirroring the stdlib: a JSON object text parses to its mapping, the
non-JSON text `notjson` fails with `JSONDecodeError` whose `.msg` is
`Expecting value`. -/
def loadsW : String → LoadsResult := fun s =>
  if s = "one" then .ok [("n", "1")]
  else if s = "two" then .ok [("n", "2")]
  else if s = "three" then .ok [("n", "3")]
  else if s = "notjson" then .jsonDecodeError "Expecting value"
  else .typeError

/-- A concrete constructed base-client state (broker `mqtt://broker:1883`,
zone `home`, room `attic`, client name `pi`, type `sensor`). -/
def stW : MqttClientState :=
  { zone := some "home", room := some "attic", client_name := some "pi",
    type := some "sensor", client_id := some "pi_sensor", user := none,
    password := none, topic := "home/attic/pi/sensor", is_enabled := true,
    is_connected := false, messages := [] }

/-- The subscriber built from `stW`. -/
def ssW : RoleClientState :=
  { toMqttClientState := stW, full_topic := "home/attic/pi/sensor/cmd" }

/-- The publisher built from `stW`. -/
def psW : RoleClientState :=
  { toMqttClientState := stW, full_topic := "home/attic/pi/sensor/status" }

/-- `ssW` after `disable()`. -/
def stDisW : RoleClientState := { ssW with is_enabled := false }

/-- `ssW` after a successful connection. -/
def stConnW : RoleClientState := { ssW with is_connected := true }

/-- A message whose payload decodes to the JSON text keyed `one`. -/
def m1W : MqttMessage := ⟨Payload.utf8 "one"⟩

/-- A message whose payload decodes to the JSON text keyed `two`. -/
def m2W : MqttMessage := ⟨Payload.utf8 "two"⟩

/-- A message whose payload decodes to the JSON text keyed `three`. -/
def m3W : MqttMessage := ⟨Payload.utf8 "three"⟩

/-- A message whose payload decodes as UTF-8 but is not JSON. -/
def mBadJsonW : MqttMessage := ⟨Payload.utf8 "notjson"⟩

/-- A message whose payload is not valid UTF-8 (such as the byte `0xff`). -/
def mBadUtf8W : MqttMessage := ⟨Payload.invalid⟩

/-- `ssW` with a non-JSON message queued ahead of a valid one. -/
def stC5W : RoleClientState := { ssW with messages := [mBadJsonW, m1W] }

/-- `ssW` with a non-UTF-8 message queued. -/
def stBadUtf8W : RoleClientState := { ssW with messages := [mBadUtf8W] }

/-- The base-client state constructed with the out-of-enumeration type
`bogus` and no zone/room/name. -/
def stBogusW : MqttClientState :=
  { zone := none, room := none, client_name := none, type := some "bogus",
    client_id := some "cid", user := none, password := none, topic := "bogus",
    is_enabled := true, is_connected := false, messages := [] }

/-! ### Claims -/

/-- C1: for every tuple (zone, room, client_name, type) of optional strings,
the topic built at client construction equals the "/"-join of exactly the
non-empty segments in the given order (empty segments omitted, no other
changes), and repeated construction from the same tuple yields the identical
topic. -/
theorem C1_topic_join_nonempty_deterministic
    (parse : String → ParseOutcome) (addr : String)
    (z r n t cid u p : Option String) (st st2 : MqttClientState)
    (h : MqttClient.init parse addr z r n t cid u p = Except.ok st)
    (h2 : MqttClient.init parse addr z r n t cid u p = Except.ok st2) :
    st.topic = specTopic z r n t ∧ st2.topic = st.topic := by
  unfold MqttClient.init at h h2
  cases hp : parse addr
  case ok =>
    rw [hp] at h h2
    simp only [Except.ok.injEq] at h h2
    subst h
    subst h2
    exact ⟨buildTopic_eq_specTopic z r n t, rfl⟩
  case invalid =>
    rw [hp] at h
    exact Except.noConfusion h
  case valueError =>
    rw [hp] at h
    exact Except.noConfusion h

/-- C1 witness: a concrete construction. -/
theorem C1_witness :
    stW.topic = specTopic (some "home") (some "attic") (some "pi") (some "sensor") ∧
    stW.topic = stW.topic :=
  C1_topic_join_nonempty_deterministic parseOk "mqtt://broker:1883"
    (some "home") (some "attic") (some "pi") (some "sensor") (some "pi_sensor")
    none none stW stW rfl rfl

/-- C2: every constructed Publisher has `full_topic = topic + "/status"` and
every constructed Subscriber `full_topic = topic + "/cmd"`; a Publisher's
full_topic never ends in "/cmd" and a Subscriber's never ends in "/status";
and no run of client operations ever changes `full_topic`, so the suffix is
fixed for the client's lifetime. -/
theorem C2_role_suffix_invariant
    (parse : String → ParseOutcome) (addr : String)
    (z r n t cid u p : Option String) (ps ss stS stP : RoleClientState)
    (ops : List SubOp) (pops : List PubOp)
    (hp : MqttClientPub.init parse addr z r n t cid u p = Except.ok ps)
    (hs : MqttClientSub.init parse addr z r n t cid u p = Except.ok ss) :
    ps.full_topic = ps.topic ++ "/" ++ STATUS ∧
    ss.full_topic = ss.topic ++ "/" ++ COMMAND ∧
    endsWith ps.full_topic ("/" ++ COMMAND) = false ∧
    endsWith ss.full_topic ("/" ++ STATUS) = false ∧
    (SubOp.applyAll ops stS).full_topic = stS.full_topic ∧
    (PubOp.applyAll pops stP).full_topic = stP.full_topic := by
  cases hb : MqttClient.init parse addr z r n t cid u p with
  | error e =>
    rw [mqttClientPub_init_error parse addr z r n t cid u p e hb] at hp
    exact Except.noConfusion hp
  | ok st =>
    rw [mqttClientPub_init_ok parse addr z r n t cid u p st hb] at hp
    rw [mqttClientSub_init_ok parse addr z r n t cid u p st hb] at hs
    simp only [Except.ok.injEq] at hp hs
    subst hp
    subst hs
    exact ⟨rfl, rfl, endsWith_status_not_cmd _, endsWith_cmd_not_status _,
      subOp_applyAll_full_topic ops stS, pubOp_applyAll_full_topic pops stP⟩

/-- C2 witness: a concrete publisher/subscriber pair and one-step runs. -/
theorem C2_witness :
    psW.full_topic = psW.topic ++ "/" ++ STATUS ∧
    ssW.full_topic = ssW.topic ++ "/" ++ COMMAND ∧
    endsWith psW.full_topic ("/" ++ COMMAND) = false ∧
    endsWith ssW.full_topic ("/" ++ STATUS) = false ∧
    (SubOp.applyAll [SubOp.disable] ssW).full_topic = ssW.full_topic ∧
    (PubOp.applyAll [PubOp.disable] psW).full_topic = psW.full_topic :=
  C2_role_suffix_invariant parseOk "mqtt://broker:1883" (some "home")
    (some "attic") (some "pi") (some "sensor") (some "pi_sensor") none none
    psW ssW ssW psW [SubOp.disable] [PubOp.disable] rfl rfl

/-- C3 counterexample: constructing a client with the peripheral type
`bogus`, which is outside the enumeration {sensor, led, joystick},
*succeeds* and stores that type — the claim that construction fails on an
invalid type, and that constructed clients always carry an enumerated type,
is false: `__init__` assigns `self._type` directly and never checks
`MqttClient.TYPES`. -/
theorem C3_counterexample_type_unchecked :
    ((MqttClient.init parseOk "mqtt://broker:1883" none none none
        (some "bogus") (some "cid") none none).map (fun st => st.type) =
      Except.ok (some "bogus")) ∧
    TYPES.contains "bogus" = false :=
  ⟨rfl, rfl⟩

/-- C3 (amended): construction performs no check of the peripheral type —
it succeeds or fails independently of the supplied type, and on success the
client's type is exactly the supplied value, enumerated or not; only the
separate `type` property setter (which construction does not use) coerces a
value outside {sensor, led, joystick} to None. -/
theorem C3_amended_type_not_validated
    (parse : String → ParseOutcome) (addr : String)
    (z r n t t2 cid u p : Option String) (st stAny : MqttClientState)
    (s : String)
    (h : MqttClient.init parse addr z r n t cid u p = Except.ok st)
    (hs : s ∉ TYPES) :
    st.type = t ∧
    (MqttClient.init parse addr z r n t2 cid u p).isOk = true ∧
    (MqttClient.setType stAny (some s)).type = none := by
  refine ⟨?_, ?_, ?_⟩
  · unfold MqttClient.init at h
    cases hp : parse addr
    case ok =>
      rw [hp] at h
      simp only [Except.ok.injEq] at h
      subst h
      rfl
    case invalid =>
      rw [hp] at h
      exact Except.noConfusion h
    case valueError =>
      rw [hp] at h
      exact Except.noConfusion h
  · unfold MqttClient.init at h ⊢
    cases hp : parse addr
    case ok => rfl
    case invalid =>
      rw [hp] at h
      exact Except.noConfusion h
    case valueError =>
      rw [hp] at h
      exact Except.noConfusion h
  · unfold MqttClient.setType
    simp [decide_eq_false hs]

/-- C3 witness for the amended claim. -/
theorem C3_amended_witness :
    stBogusW.type = some "bogus" ∧
    (MqttClient.init parseOk "mqtt://broker:1883" none none none
        (some JOYSTICK) (some "cid") none none).isOk = true ∧
    (MqttClient.setType stW (some "bogus")).type = none :=
  C3_amended_type_not_validated parseOk "mqtt://broker:1883" none none none
    (some "bogus") (some JOYSTICK) (some "cid") none none stBogusW stW
    "bogus" rfl (by decide)

/-- C4: on an empty inbound queue, any number of successive
`decoded_message()` calls each return the empty mapping `{}` and leave the
client state (queue included) unchanged — the empty queue is not an
error. -/
theorem C4_empty_queue_decode_idempotent (loads : String → LoadsResult)
    (st : RoleClientState) (n : Nat) (h : st.messages = []) :
    decodeN loads n st = (List.replicate n (Except.ok PyDict.empty), st) := by
  have h1 : MqttClientSub.decoded_message loads st = (Except.ok PyDict.empty, st) := by
    unfold MqttClientSub.decoded_message
    rw [h]
  induction n with
  | zero => rfl
  | succ k ih =>
    unfold decodeN
    simp only [h1, ih]
    simp [List.replicate_succ]

/-- C4 witness: three calls on a concrete empty-queue subscriber. -/
theorem C4_witness :
    decodeN loadsW 3 ssW = (List.replicate 3 (Except.ok PyDict.empty), ssW) :=
  C4_empty_queue_decode_idempotent loadsW ssW 3 rfl

/-- C5 counterexample: on a queue whose oldest message's payload is not
decodable as UTF-8 text, `decoded_message()` does *not* raise
`MqttDecodingError` as the claim states — the `payload.decode("utf-8")`
call sits before the `try` block that wraps only `json.loads`, so the
stdlib `UnicodeDecodeError` escapes unwrapped. -/
theorem C5_counterexample_nonutf8_unwrapped :
    (MqttClientSub.decoded_message loadsW stBadUtf8W).1 =
      Except.error PyError.unicodeDecodeError ∧
    raisedMqttDecodingError (MqttClientSub.decoded_message loadsW stBadUtf8W).1 = false :=
  ⟨rfl, rfl⟩

/-- C5 (amended): on a non-empty queue whose oldest message decodes as UTF-8
text but fails JSON parsing, `decoded_message()` raises `MqttDecodingError`
carrying the JSON decoder's error message (not the payload itself); the
offending message is consumed (not requeued) and a subsequent call on a
following valid JSON message returns its decoded mapping. A payload that is
not decodable as UTF-8 instead raises the stdlib decoding error
(`UnicodeDecodeError`) unwrapped, likewise consuming the message. -/
theorem C5_amended_bad_payload_isolation (loads : String → LoadsResult)
    (st1 st2 : RoleClientState) (mjson muni mgood : MqttMessage)
    (rest1 rest2 : List MqttMessage) (sbad sgood emsg : String) (d : PyDict)
    (h1 : st1.messages = mjson :: mgood :: rest1)
    (h2 : mjson.payload = Payload.utf8 sbad)
    (h3 : loads sbad = LoadsResult.jsonDecodeError emsg)
    (h4 : mgood.payload = Payload.utf8 sgood)
    (h5 : loads sgood = LoadsResult.ok d)
    (h6 : st2.messages = muni :: rest2)
    (h7 : muni.payload = Payload.invalid) :
    MqttClientSub.decoded_message loads st1 =
      (Except.error (PyError.mqttDecodingError
          "There was an error deserializing the message." emsg),
        { st1 with messages := mgood :: rest1 }) ∧
    MqttClientSub.decoded_message loads { st1 with messages := mgood :: rest1 } =
      (Except.ok d, { st1 with messages := rest1 }) ∧
    MqttClientSub.decoded_message loads st2 =
      (Except.error PyError.unicodeDecodeError, { st2 with messages := rest2 }) := by
  refine ⟨?_, ?_, ?_⟩
  · simp only [MqttClientSub.decoded_message, h1, h2, Payload.decodeUtf8, h3]
  · exact decoded_message_ok_step loads _ mgood rest1 sgood d rfl h4 h5
  · simp only [MqttClientSub.decoded_message, h6, h7, Payload.decodeUtf8]

/-- C5 witness: a concrete bad-then-good queue and a concrete non-UTF-8
queue. -/
theorem C5_amended_witness :
    MqttClientSub.decoded_message loadsW stC5W =
      (Except.error (PyError.mqttDecodingError
          "There was an error deserializing the message." "Expecting value"),
        { stC5W with messages := [m1W] }) ∧
    MqttClientSub.decoded_message loadsW { stC5W with messages := [m1W] } =
      (Except.ok [("n", "1")], { stC5W with messages := [] }) ∧
    MqttClientSub.decoded_message loadsW stBadUtf8W =
      (Except.error PyError.unicodeDecodeError, { stBadUtf8W with messages := [] }) :=
  C5_amended_bad_payload_isolation loadsW stC5W stBadUtf8W mBadJsonW mBadUtf8W
    m1W [] [] "notjson" "one" "Expecting value" [("n", "1")]
    rfl rfl rfl rfl rfl rfl rfl

/-- C6: for every mapping passed to `publish(reading)`, the call serializes
the reading to a JSON text payload (`json.dumps`) and performs exactly one
publish request, to `full_topic`, with QoS 0 and the retain flag set; the
client state is unchanged, nothing is returned, and no failure can reach the
caller (the result carries no error case). -/
theorem C6_publish_single_attempt (dumps : PyDict → String)
    (st : RoleClientState) (data : PyDict) :
    MqttClientPub.publish dumps st data =
      (st, [Effect.publishMsg st.full_topic (dumps data) 0 true]) := rfl

/-- C7: the on-message callback enqueues every delivered message verbatim
(no secondary filtering), and successive `decoded_message()` calls dequeue
in exactly the delivery order: enqueuing m1, m2, m3 into an empty queue and
then decoding three times yields their mappings in that order. -/
theorem C7_fifo_order (loads : String → LoadsResult)
    (stAny st : RoleClientState) (mAny m1 m2 m3 : MqttMessage)
    (s1 s2 s3 : String) (d1 d2 d3 : PyDict)
    (h0 : st.messages = [])
    (p1 : m1.payload = Payload.utf8 s1) (l1 : loads s1 = LoadsResult.ok d1)
    (p2 : m2.payload = Payload.utf8 s2) (l2 : loads s2 = LoadsResult.ok d2)
    (p3 : m3.payload = Payload.utf8 s3) (l3 : loads s3 = LoadsResult.ok d3) :
    MqttClient.on_message stAny mAny =
      { stAny with messages := stAny.messages ++ [mAny] } ∧
    (MqttClientSub.decoded_message loads
        (MqttClient.on_message (MqttClient.on_message (MqttClient.on_message st m1) m2) m3)).1 =
      Except.ok d1 ∧
    (MqttClientSub.decoded_message loads
        (MqttClientSub.decoded_message loads
          (MqttClient.on_message (MqttClient.on_message (MqttClient.on_message st m1) m2) m3)).2).1 =
      Except.ok d2 ∧
    (MqttClientSub.decoded_message loads
        (MqttClientSub.decoded_message loads
          (MqttClientSub.decoded_message loads
            (MqttClient.on_message (MqttClient.on_message (MqttClient.on_message st m1) m2) m3)).2).2).1 =
      Except.ok d3 := by
  have hm3 : (MqttClient.on_message (MqttClient.on_message
      (MqttClient.on_message st m1) m2) m3).messages = [m1, m2, m3] := by
    simp [MqttClient.on_message, h0]
  have e1 := decoded_message_ok_step loads _ m1 [m2, m3] s1 d1 hm3 p1 l1
  have e2 := decoded_message_ok_step loads
    ({ (MqttClient.on_message (MqttClient.on_message (MqttClient.on_message st m1) m2) m3)
        with messages := [m2, m3] }) m2 [m3] s2 d2 rfl p2 l2
  have e3 := decoded_message_ok_step loads
    ({ (MqttClient.on_message (MqttClient.on_message (MqttClient.on_message st m1) m2) m3)
        with messages := [m3] }) m3 [] s3 d3 rfl p3 l3
  refine ⟨rfl, ?_, ?_, ?_⟩
  · simp only [e1]
  · simp only [e1, e2]
  · simp only [e1, e2, e3]

/-- C7 witness: three concrete messages through a concrete subscriber. -/
theorem C7_witness :
    MqttClient.on_message psW m1W = { psW with messages := psW.messages ++ [m1W] } ∧
    (MqttClientSub.decoded_message loadsW
        (MqttClient.on_message (MqttClient.on_message (MqttClient.on_message ssW m1W) m2W) m3W)).1 =
      Except.ok [("n", "1")] ∧
    (MqttClientSub.decoded_message loadsW
        (MqttClientSub.decoded_message loadsW
          (MqttClient.on_message (MqttClient.on_message (MqttClient.on_message ssW m1W) m2W) m3W)).2).1 =
      Except.ok [("n", "2")] ∧
    (MqttClientSub.decoded_message loadsW
        (MqttClientSub.decoded_message loadsW
          (MqttClientSub.decoded_message loadsW
            (MqttClient.on_message (MqttClient.on_message (MqttClient.on_message ssW m1W) m2W) m3W)).2).2).1 =
      Except.ok [("n", "3")] :=
  C7_fifo_order loadsW psW ssW m1W m1W m2W m3W "one" "two" "three"
    [("n", "1")] [("n", "2")] [("n", "3")] rfl rfl rfl rfl rfl rfl rfl

/-- C8: `disable()` on an enabled client requests disconnect, stops the
network loop and clears `is_enabled`; on an already-disabled client it is a
no-op; and disabled is terminal — no run of client operations (subscriber or
publisher) ever re-enables the client. -/
theorem C8_disable_idempotent_terminal (stE stD stS stP : RoleClientState)
    (ops : List SubOp) (pops : List PubOp)
    (hE : stE.is_enabled = true) (hD : stD.is_enabled = false)
    (hS : stS.is_enabled = false) (hP : stP.is_enabled = false) :
    MqttClient.disable stE =
      ({ stE with is_enabled := false }, [Effect.disconnect, Effect.loopStop]) ∧
    MqttClient.disable stD = (stD, []) ∧
    (SubOp.applyAll ops stS).is_enabled = false ∧
    (PubOp.applyAll pops stP).is_enabled = false := by
  refine ⟨?_, ?_, subOp_applyAll_not_enabled ops stS hS,
    pubOp_applyAll_not_enabled pops stP hP⟩
  · simp [MqttClient.disable, hE]
  · simp [MqttClient.disable, hD]

/-- C8 witness: a concrete enabled client, a concrete disabled one, and
concrete operation runs from the disabled state. -/
theorem C8_witness :
    MqttClient.disable ssW =
      ({ ssW with is_enabled := false }, [Effect.disconnect, Effect.loopStop]) ∧
    MqttClient.disable stDisW = (stDisW, []) ∧
    (SubOp.applyAll [SubOp.onConnect 0, SubOp.disable] stDisW).is_enabled = false ∧
    (PubOp.applyAll [PubOp.onDisconnect 1, PubOp.disable] stDisW).is_enabled = false :=
  C8_disable_idempotent_terminal ssW stDisW stDisW stDisW
    [SubOp.onConnect 0, SubOp.disable] [PubOp.onDisconnect 1, PubOp.disable]
    rfl rfl rfl rfl

/-- C9: a subscriber's connect callback with reason code 0 sets the state to
connected and issues a subscribe request for its full topic at QoS 0 (this
holds at every (re)connection, the callback being state-independent); a
disconnect callback with a non-zero reason code sets the state to
disconnected and unsubscribes from the full topic; a disconnect callback
with reason code 0 changes no state and triggers no unsubscribe. -/
theorem C9_sub_connect_subscribe_cycle (st stD stZ : RoleClientState)
    (rc : Nat) (h : rc ≠ 0) :
    MqttClientSub.on_connect st 0 =
      ({ st with is_connected := true }, [Effect.subscribe st.full_topic 0]) ∧
    MqttClientSub.on_disconnect stD rc =
      ({ stD with is_connected := false }, [Effect.unsubscribe stD.full_topic]) ∧
    MqttClientSub.on_disconnect stZ 0 = (stZ, []) := by
  refine ⟨?_, ?_, ?_⟩
  · simp [MqttClientSub.on_connect]
  · simp [MqttClientSub.on_disconnect, h]
  · simp [MqttClientSub.on_disconnect]

/-- C9 witness: a concrete subscriber, reason code 7 for the non-clean
disconnect. -/
theorem C9_witness :
    MqttClientSub.on_connect ssW 0 =
      ({ ssW with is_connected := true }, [Effect.subscribe ssW.full_topic 0]) ∧
    MqttClientSub.on_disconnect stConnW 7 =
      ({ stConnW with is_connected := false }, [Effect.unsubscribe stConnW.full_topic]) ∧
    MqttClientSub.on_disconnect stConnW 0 = (stConnW, []) :=
  C9_sub_connect_subscribe_cycle ssW stConnW stConnW 7 (by decide)

/-- C10: for every client in any state, `disable()` modifies only the
`is_enabled` flag — `is_connected`, the inbound queue and its contents, the
topic, the full topic and every identity attribute are unchanged — so a
disabled client whose last recorded connection state was connected (`st2`)
still reports `is_connected` as true. -/
theorem C10_disable_frame (st st2 : RoleClientState)
    (h : st2.is_connected = true) :
    ((MqttClient.disable st).1.is_connected = st.is_connected) ∧
    ((MqttClient.disable st).1.messages = st.messages) ∧
    ((MqttClient.disable st).1.topic = st.topic) ∧
    ((MqttClient.disable st).1.full_topic = st.full_topic) ∧
    ((MqttClient.disable st).1.zone = st.zone) ∧
    ((MqttClient.disable st).1.room = st.room) ∧
    ((MqttClient.disable st).1.client_name = st.client_name) ∧
    ((MqttClient.disable st).1.type = st.type) ∧
    ((MqttClient.disable st).1.client_id = st.client_id) ∧
    ((MqttClient.disable st).1.user = st.user) ∧
    ((MqttClient.disable st).1.password = st.password) ∧
    ((MqttClient.disable st2).1.is_connected = true) := by
  have frame : ∀ s : RoleClientState,
      ((MqttClient.disable s).1.is_connected = s.is_connected) ∧
      ((MqttClient.disable s).1.messages = s.messages) ∧
      ((MqttClient.disable s).1.topic = s.topic) ∧
      ((MqttClient.disable s).1.full_topic = s.full_topic) ∧
      ((MqttClient.disable s).1.zone = s.zone) ∧
      ((MqttClient.disable s).1.room = s.room) ∧
      ((MqttClient.disable s).1.client_name = s.client_name) ∧
      ((MqttClient.disable s).1.type = s.type) ∧
      ((MqttClient.disable s).1.client_id = s.client_id) ∧
      ((MqttClient.disable s).1.user = s.user) ∧
      ((MqttClient.disable s).1.password = s.password) := by
    intro s
    unfold MqttClient.disable
    split <;> exact ⟨rfl, rfl, rfl, rfl, rfl, rfl, rfl, rfl, rfl, rfl, rfl⟩
  obtain ⟨f1, f2, f3, f4, f5, f6, f7, f8, f9, f10, f11⟩ := frame st
  exact ⟨f1, f2, f3, f4, f5, f6, f7, f8, f9, f10, f11, (frame st2).1.trans h⟩

/-- C10 witness: the frame at a concrete *disconnected* (enabled) client,
and a concrete connected client that stays connected-looking after
`disable()`. -/
theorem C10_witness :
    ((MqttClient.disable ssW).1.is_connected = ssW.is_connected) ∧
    ((MqttClient.disable ssW).1.messages = ssW.messages) ∧
    ((MqttClient.disable ssW).1.topic = ssW.topic) ∧
    ((MqttClient.disable ssW).1.full_topic = ssW.full_topic) ∧
    ((MqttClient.disable ssW).1.zone = ssW.zone) ∧
    ((MqttClient.disable ssW).1.room = ssW.room) ∧
    ((MqttClient.disable ssW).1.client_name = ssW.client_name) ∧
    ((MqttClient.disable ssW).1.type = ssW.type) ∧
    ((MqttClient.disable ssW).1.client_id = ssW.client_id) ∧
    ((MqttClient.disable ssW).1.user = ssW.user) ∧
    ((MqttClient.disable ssW).1.password = ssW.password) ∧
    ((MqttClient.disable stConnW).1.is_connected = true) :=
  C10_disable_frame ssW stConnW rfl

end RpiSensehatMqtt
